import Mathlib

set_option autoImplicit false

namespace FoodDelivery

/-! Shallow embedding of the rate-limiting core of the food-delivery
server: the five limiter configurations of src/unnamed/part_000 (the
rate-limiter middleware module), the global error handler of
src/server.js, and the bulk reset script
src/scripts/clear-rate-limits.js, together with a model of the
fixed-window counter store they share through Redis. -/

/-- A JSON-like JavaScript value, used for response bodies and for the
development-mode error field of the error handler. -/
inductive JsVal where
  | str : String → JsVal
  | num : Nat → JsVal
  | jbool : Bool → JsVal
  | undef : JsVal
  | obj : List (String × JsVal) → JsVal

/-- An HTTP response: numeric status code plus body. -/
structure Response where
  status : Nat
  body : JsVal

/-- A JavaScript Error object as the server.js error handler reads it:
an optional status field and an optional message field. -/
structure ErrObj where
  status : Option Nat
  message : Option String

/-- Rendering of an ErrObj for the development-mode error field of the
error-handler body. -/
def errJs (e : ErrObj) : JsVal :=
  JsVal.obj
    [("status", match e.status with | some n => JsVal.num n | none => JsVal.undef),
     ("message", match e.message with | some m => JsVal.str m | none => JsVal.undef)]

/-- The global error handler of src/server.js lines 210 to 217: it
responds with status err.status or 500 and the body
success false / message err.message-or-Internal-Server-Error, with the
raw error included only in development mode. -/
def errorHandler (isDev : Bool) (e : ErrObj) : Response :=
  { status := e.status.getD 500,
    body := JsVal.obj
      [("success", JsVal.jbool false),
       ("message", JsVal.str (e.message.getD "Internal Server Error")),
       ("error", if isDev then errJs e else JsVal.obj [])] }

/-- The authenticated user record as the key generators read it: only
the Mongo identifier is consulted; none models a user object whose id
field is absent. -/
structure UserRec where
  id : Option String
deriving DecidableEq

/-- The request fields read by the key generators of part_000. Every
field is optional, mirroring dynamic field access on an Express request
object (absent field = none, and none renders as undefined). -/
structure Req where
  ip : Option String
  user : Option UserRec
  tenantId : Option String
  xTenantIdHeader : Option String
deriving DecidableEq

/-- JavaScript truthiness of an optional string field: undefined and
the empty string are falsy, every other string is truthy. -/
def truthy : Option String → Bool
  | some s => s != ""
  | none => false

/-- The userLimiter keyGenerator of part_000 lines 62 to 65, literally
req.user ? req.user._id.toString() : req.ip. Any present user object is
truthy, so it always takes the first branch; if that object lacks the
id field, calling toString() on undefined throws a TypeError, modelled
as the error case. -/
def userKeyGen (req : Req) : Except String (Option String) :=
  match req.user with
  | some u =>
    match u.id with
    | some i => Except.ok (some i)
    | none => Except.error "TypeError: Cannot read properties of undefined"
  | none => Except.ok req.ip

/-- The orderLimiter keyGenerator of part_000 lines 81 to 83, the same
expression as the userLimiter one. -/
def orderKeyGen (req : Req) : Except String (Option String) :=
  match req.user with
  | some u =>
    match u.id with
    | some i => Except.ok (some i)
    | none => Except.error "TypeError: Cannot read properties of undefined"
  | none => Except.ok req.ip

/-- The tenantLimiter keyGenerator of part_000 lines 42 to 45, literally
req.tenantId or req.headers x-tenant-id or req.ip, with the JavaScript
or-chain falling through falsy values. It never throws. -/
def tenantKeyGen (req : Req) : Except String (Option String) :=
  Except.ok
    (if truthy req.tenantId then req.tenantId
     else if truthy req.xTenantIdHeader then req.xTenantIdHeader
     else req.ip)

/-- One rate-limit policy configuration: window length, quota, denial
message and the Redis key prefix its RedisStore instance prepends.
part_000 passes no prefix option for the general and auth limiters, so
both of their stores use the rate-limit-redis default prefix rl: ;
the tenant, user and order limiters set explicit prefixes. -/
structure Policy where
  windowMs : Nat
  max : Nat
  message : String
  pfx : String
deriving DecidableEq

/-- generalLimiter of part_000 lines 6 to 16 (no prefix option, hence
the rate-limit-redis default rl:). -/
def generalLimiter : Policy :=
  { windowMs := 15 * 60 * 1000, max := 100,
    message := "Too many requests from this IP, please try again later.",
    pfx := "rl:" }

/-- authLimiter of part_000 lines 19 to 29 (no prefix option, hence the
rate-limit-redis default rl:). -/
def authLimiter : Policy :=
  { windowMs := 15 * 60 * 1000, max := 5,
    message := "Too many authentication attempts, please try again later.",
    pfx := "rl:" }

/-- tenantLimiter of part_000 lines 32 to 49, a factory taking
maxRequests and windowMinutes (JavaScript defaults 1000 and 15). -/
def tenantLimiter (maxRequests windowMinutes : Nat) : Policy :=
  { windowMs := windowMinutes * 60 * 1000, max := maxRequests,
    message := "Tenant rate limit exceeded, please try again later.",
    pfx := "tenant_limit:" }

/-- userLimiter of part_000 lines 52 to 69, a factory taking
maxRequests and windowMinutes (JavaScript defaults 50 and 15). -/
def userLimiter (maxRequests windowMinutes : Nat) : Policy :=
  { windowMs := windowMinutes * 60 * 1000, max := maxRequests,
    message := "User rate limit exceeded, please try again later.",
    pfx := "user_limit:" }

/-- orderLimiter of part_000 lines 72 to 86. -/
def orderLimiter : Policy :=
  { windowMs := 60 * 60 * 1000, max := 10,
    message := "Too many orders placed, please try again later.",
    pfx := "order_limit:" }

/-- tenantLimiter instantiated at its JavaScript default arguments. -/
def tenantLimiterDefault : Policy := tenantLimiter 1000 15

/-- userLimiter instantiated at its JavaScript default arguments. -/
def userLimiterDefault : Policy := userLimiter 50 15

/-- The full Redis key a policy stores its counter under: the store
prefix concatenated with the identity key produced by the key
generator. -/
def fullKey (p : Policy) (idKey : String) : String :=
  p.pfx ++ idKey

/-- The shared counter store within one window: an association list
from full Redis key to the current count. -/
abbrev Store := List (String × Nat)

/-- The count the store holds for a key (0 when the key is absent). -/
def storeCount : Store → String → Nat
  | [], _ => 0
  | (k2, n) :: rest, k => if k2 = k then n else storeCount rest k

/-- Atomic increment-with-create, the single INCR a RedisStore issues
per request: creates the counter at 1 if absent, else adds 1; returns
the updated store and the count after the increment. -/
def bump : Store → String → Store × Nat
  | [], k => ([(k, 1)], 1)
  | (k2, n) :: rest, k =>
    if k2 = k then ((k2, n + 1) :: rest, n + 1)
    else
      let r := bump rest k
      ((k2, n) :: r.1, r.2)

/-- The response express-rate-limit sends on denial with the part_000
configurations: the default handler sends the configured message value
verbatim with the default status 429, and every limiter in part_000
configures message as a plain string. -/
def denialResponse (p : Policy) : Response :=
  { status := 429, body := JsVal.str p.message }

/-- One limiter middleware invocation on a resolved identity key.
storeFail carries the error when the Redis increment fails. part_000
configures no store-error handling (no passOnStoreError, no try/catch),
so a failed increment propagates out of the middleware to the global
error handler of src/server.js, which answers with an error response;
the request is not forwarded. On a successful increment the middleware
allows the request exactly when the returned count is at most max, and
otherwise responds with the denial response. The returned store is the
store after the increment (a denied request still consumed an
increment); the returned response is none exactly when the request is
forwarded to the next handler. -/
def limiterMw (p : Policy) (idKey : String) (storeFail : Option ErrObj)
    (s : Store) : Store × Option Response :=
  match storeFail with
  | some e => (s, some (errorHandler false e))
  | none =>
    let r := bump s (fullKey p idKey)
    (r.1, if r.2 ≤ p.max then none else some (denialResponse p))

/-- A route's middleware chain on one request, store healthy: the
policies run in sequence, each incrementing its own full key; the first
one that responds (denies) ends the chain and the policies after it are
not evaluated, so they issue no further increments. Returns the store
after the increments that did run, and the response of the first denier
(none when every policy forwarded). -/
def runChain (idKey : String) : List Policy → Store → Store × Option Response
  | [], s => (s, none)
  | p :: ps, s =>
    match limiterMw p idKey none s with
    | (s2, none) => runChain idKey ps s2
    | (s2, some r) => (s2, some r)

/-- n consecutive requests from one identity within a single window
through the same middleware chain, starting from an empty store.
Returns the final store and the per-request decisions in order, true
meaning the request was forwarded. -/
def chainSeq (ps : List Policy) (idKey : String) : Nat → Store × List Bool
  | 0 => ([], [])
  | n + 1 =>
    let r := chainSeq ps idKey n
    let r2 := runChain idKey ps r.1
    (r2.1, r.2 ++ [r2.2.isNone])

/-- The pattern list of src/scripts/clear-rate-limits.js lines 19 to 26,
each pattern written there as the prefix followed by a star; the model
keeps the prefix part, and matching a pattern means starting with that
prefix. -/
def clearPatterns : List String :=
  ["rl:", "auth_limit:", "general_limit:", "order_limit:", "tenant_limit:", "user_limit:"]

/-- Glob matching for a trailing-star pattern: the key matches when its
characters start with the pattern's prefix part. -/
def matchesPat (k pat : String) : Bool :=
  pat.data.isPrefixOf k.data

/-- The KEYS command for one pattern: the keys of the store that start
with the pattern prefix. -/
def keysMatching (keys : List String) (pat : String) : List String :=
  keys.filter (fun k => matchesPat k pat)

/-- The DEL command on a list of keys: removes every listed key. -/
def deleteKeys (keys dels : List String) : List String :=
  keys.filter (fun k => !(dels.contains k))

/-- One loop iteration of clearRateLimits (lines 28 to 36): enumerate
the keys matching the pattern, then delete them. -/
def clearOnce (keys : List String) (pat : String) : List String :=
  deleteKeys keys (keysMatching keys pat)

/-- The whole deletion loop of clearRateLimits over its pattern list,
applied to the set of keys present in the store. -/
def clearRateLimits (keys : List String) : List String :=
  clearPatterns.foldl clearOnce keys

/-- An oracle for the Redis connection the reset script opens: whether
connect() succeeds, the result of KEYS per pattern, the result of DEL
per key list, and whether quit() succeeds. Error values carry the
message of the thrown error. -/
structure RedisConn where
  connectOk : Bool
  keysRes : String → Except String (List String)
  delRes : List String → Except String Unit
  quitOk : Bool

/-- One line the reset script prints. -/
inductive LogEntry where
  | connected
  | deleting : Nat → String → LogEntry
  | noKeys : String → LogEntry
  | cleared
  | errorMsg : String → LogEntry
deriving DecidableEq

/-- The for-loop of clearRateLimits over the patterns: for each pattern
ask KEYS; on a non-empty result log the found count and issue DEL, on
an empty result log that none were found. Returns the log lines printed
before any failure, and the error of the first failing call if one
failed (the catch block then takes over). -/
def runPatterns (conn : RedisConn) : List String → List LogEntry × Option String
  | [] => ([], none)
  | pat :: rest =>
    match conn.keysRes pat with
    | Except.error e => ([], some e)
    | Except.ok keys =>
      if 0 < keys.length then
        match conn.delRes keys with
        | Except.error e => ([LogEntry.deleting keys.length pat], some e)
        | Except.ok _ =>
          let r := runPatterns conn rest
          (LogEntry.deleting keys.length pat :: r.1, r.2)
      else
        let r := runPatterns conn rest
        (LogEntry.noKeys pat :: r.1, r.2)

/-- The whole script src/scripts/clear-rate-limits.js: connect, run the
pattern loop, log completion, quit, exit 0; any thrown error is caught,
logged, and the script exits 1. Returns the exit status and the log. -/
def clearScript (conn : RedisConn) : Nat × List LogEntry :=
  if conn.connectOk then
    let r := runPatterns conn clearPatterns
    match r.2 with
    | some e => (1, LogEntry.connected :: r.1 ++ [LogEntry.errorMsg e])
    | none =>
      if conn.quitOk then
        (0, LogEntry.connected :: r.1 ++ [LogEntry.cleared])
      else
        (1, LogEntry.connected :: r.1 ++ [LogEntry.cleared, LogEntry.errorMsg "quit failed"])
  else
    (1, [LogEntry.errorMsg "connect failed"])

/-- The log line the pattern loop prints for one pattern when every
call succeeds: the found-count with the pattern on a non-empty KEYS
result, the no-keys line otherwise. -/
def logFor (conn : RedisConn) (pat : String) : LogEntry :=
  match conn.keysRes pat with
  | Except.error e => LogEntry.errorMsg e
  | Except.ok keys =>
    if 0 < keys.length then LogEntry.deleting keys.length pat
    else LogEntry.noKeys pat

/-- Whether a key-generator result is a normally returned key (as
opposed to a thrown exception). -/
def exceptOk : Except String (Option String) → Bool
  | Except.ok _ => true
  | Except.error _ => false

/-- Whether a JSON value is an object carrying a success field. -/
def hasSuccessField : JsVal → Bool
  | JsVal.obj fields => fields.any (fun kv => kv.1 == "success")
  | _ => false

/-- A Redis connection error as the client surfaces it. -/
def redisErr : ErrObj := { status := none, message := some "Connection is closed." }

/-- A request carrying an authenticated user object whose id field is
absent. -/
def reqNoId : Req :=
  { ip := some "198.51.100.7", user := some { id := none },
    tenantId := none, xTenantIdHeader := none }

/-- A healthy Redis connection for the reset tool: keys exist only
under the default rl: pattern, and every call succeeds. -/
def connOk : RedisConn :=
  { connectOk := true,
    keysRes := fun pat => Except.ok (if pat = "rl:" then ["rl:a", "rl:b"] else []),
    delRes := fun _ => Except.ok (),
    quitOk := true }

/-- A request carrying an authenticated user with an identifier. -/
def reqAuthd : Req :=
  { ip := some "10.0.0.1", user := some { id := some "64a1f20b9d3e" },
    tenantId := none, xTenantIdHeader := none }

/-- An unauthenticated request from one IP. -/
def reqAnon1 : Req :=
  { ip := some "198.51.100.1", user := none, tenantId := none, xTenantIdHeader := none }

/-- An unauthenticated request from another IP. -/
def reqAnon2 : Req :=
  { ip := some "198.51.100.2", user := none, tenantId := none, xTenantIdHeader := none }

/-- A request with a tenant id on the context and also a tenant header. -/
def reqTenant : Req :=
  { ip := some "203.0.113.9", user := none, tenantId := some "t42",
    xTenantIdHeader := some "hdr9" }

/-- A request with only a tenant header. -/
def reqHdr : Req :=
  { ip := some "203.0.113.9", user := none, tenantId := none,
    xTenantIdHeader := some "hdr9" }

/-- A request with neither tenant source. -/
def reqIpOnly : Req :=
  { ip := some "203.0.113.9", user := none, tenantId := none, xTenantIdHeader := none }

/-! Lemmas about the counter store. -/

theorem bump_snd (s : Store) (k : String) : (bump s k).2 = storeCount s k + 1 := by
  induction s with
  | nil => simp [bump, storeCount]
  | cons kv rest ih =>
    obtain ⟨k2, n⟩ := kv
    by_cases h : k2 = k <;> simp [bump, storeCount, h, ih]

theorem storeCount_bump_self (s : Store) (k : String) :
    storeCount (bump s k).1 k = storeCount s k + 1 := by
  induction s with
  | nil => simp [bump, storeCount]
  | cons kv rest ih =>
    obtain ⟨k2, n⟩ := kv
    by_cases h : k2 = k <;> simp [bump, storeCount, h, ih]

theorem storeCount_bump_other (s : Store) (k k2 : String) (h : k ≠ k2) :
    storeCount (bump s k).1 k2 = storeCount s k2 := by
  induction s with
  | nil => simp [bump, storeCount, h]
  | cons kv rest ih =>
    obtain ⟨k3, n⟩ := kv
    by_cases h3 : k3 = k <;> by_cases h4 : k3 = k2 <;>
      simp_all [bump, storeCount]

/-! Lemmas about the middleware chain. -/

theorem runChain_cons (p : Policy) (ps : List Policy) (idKey : String) (s : Store) :
    runChain idKey (p :: ps) s =
      if (bump s (fullKey p idKey)).2 ≤ p.max
      then runChain idKey ps (bump s (fullKey p idKey)).1
      else ((bump s (fullKey p idKey)).1, some (denialResponse p)) := by
  by_cases h : (bump s (fullKey p idKey)).2 ≤ p.max <;>
    simp [runChain, limiterMw, h]

theorem runChain_single_store (p : Policy) (idKey : String) (s : Store) :
    (runChain idKey [p] s).1 = (bump s (fullKey p idKey)).1 := by
  by_cases h : (bump s (fullKey p idKey)).2 ≤ p.max <;>
    simp [runChain, limiterMw, h]

theorem runChain_single_decision (p : Policy) (idKey : String) (s : Store) :
    (runChain idKey [p] s).2.isNone = decide ((bump s (fullKey p idKey)).2 ≤ p.max) := by
  by_cases h : (bump s (fullKey p idKey)).2 ≤ p.max <;>
    simp [runChain, limiterMw, h]

theorem chainSeq_single_count (p : Policy) (idKey : String) (n : Nat) :
    storeCount (chainSeq [p] idKey n).1 (fullKey p idKey) = n := by
  induction n with
  | zero => simp [chainSeq, storeCount]
  | succ n ih =>
    simp only [chainSeq, runChain_single_store]
    rw [storeCount_bump_self, ih]

theorem chainSeq_single_decisions (p : Policy) (idKey : String) (n : Nat) :
    (chainSeq [p] idKey n).2 =
      (List.range n).map (fun j => decide (j + 1 ≤ p.max)) := by
  induction n with
  | zero => simp [chainSeq]
  | succ n ih =>
    simp only [chainSeq, List.range_succ, List.map_append, List.map_cons, List.map_nil]
    rw [runChain_single_decision, bump_snd, chainSeq_single_count, ih]

/-! Lemmas about strings used as Redis keys. -/

theorem mkConsAppend_ne (c d : Char) (a b : List Char) (hcd : c ≠ d) (k k2 : String) :
    String.mk (c :: a) ++ k ≠ String.mk (d :: b) ++ k2 := by
  obtain ⟨kd⟩ := k
  obtain ⟨kd2⟩ := k2
  intro h
  have h2 : c :: (a ++ kd) = d :: (b ++ kd2) := congrArg String.data h
  exact hcd (by injection h2)

theorem str_append_left_cancel {a k k2 : String} (h : a ++ k = a ++ k2) : k = k2 := by
  obtain ⟨ad⟩ := a
  obtain ⟨kd⟩ := k
  obtain ⟨kd2⟩ := k2
  have h2 : ad ++ kd = ad ++ kd2 := congrArg String.data h
  exact congrArg String.mk (List.append_cancel_left h2)

/-! Lemmas about the reset script. -/

theorem mem_clearOnce (a : String) (keys : List String) (pat : String) :
    a ∈ clearOnce keys pat ↔ a ∈ keys ∧ ¬ (matchesPat a pat = true) := by
  simp only [clearOnce, deleteKeys, keysMatching, List.mem_filter,
    Bool.not_eq_true', List.contains, List.elem_eq_mem, decide_eq_false_iff_not]
  tauto

theorem mem_foldl_clearOnce (pats : List String) (keys : List String) (a : String) :
    a ∈ pats.foldl clearOnce keys ↔
      a ∈ keys ∧ ∀ pat ∈ pats, ¬ (matchesPat a pat = true) := by
  induction pats generalizing keys with
  | nil => simp
  | cons pat rest ih =>
    simp only [List.foldl_cons, ih, mem_clearOnce, List.mem_cons]
    constructor
    · rintro ⟨⟨hmem, hp⟩, hrest⟩
      refine ⟨hmem, ?_⟩
      rintro q (rfl | hq)
      · exact hp
      · exact hrest q hq
    · rintro ⟨hmem, hall⟩
      exact ⟨⟨hmem, hall pat (Or.inl rfl)⟩, fun q hq => hall q (Or.inr hq)⟩

theorem runPatterns_success_log (conn : RedisConn) (pats : List String)
    (h : (runPatterns conn pats).2 = none) :
    (runPatterns conn pats).1 = pats.map (logFor conn) := by
  induction pats with
  | nil => simp [runPatterns]
  | cons pat rest ih =>
    match hk : conn.keysRes pat with
    | Except.error e =>
      exfalso
      simp [runPatterns, hk] at h
    | Except.ok keys =>
      by_cases hlen : 0 < keys.length
      · match hd : conn.delRes keys with
        | Except.error e =>
          exfalso
          simp [runPatterns, hk, hlen, hd] at h
        | Except.ok _ =>
          simp only [runPatterns, hk, hlen, hd, if_pos] at h ⊢
          simp only [List.map_cons, logFor, hk, if_pos hlen]
          exact congrArg _ (ih h)
      · simp only [runPatterns, hk, hlen, if_neg] at h ⊢
        simp only [List.map_cons, logFor, hk, if_neg hlen]
        exact congrArg _ (ih h)

/-! Claim theorems. -/

/-- C1: for every policy and every sequence of requests from one
identity within a single window, the request is allowed exactly when
the count returned by the atomic increment is at most maxRequests. The
count the increment returns for request number n+1 is n+1 (second
conjunct), the decision of request number j+1 is exactly j+1 at most
maxRequests (first conjunct), and at the boundary request number
maxRequests is allowed while request number maxRequests+1 is denied
(last two conjuncts, the quota being at least one). -/
theorem fixed_window_boundary (p : Policy) (idKey : String) (n : Nat)
    (h : 1 ≤ p.max) :
    ((chainSeq [p] idKey n).2 = (List.range n).map (fun j => decide (j + 1 ≤ p.max))) ∧
    ((bump (chainSeq [p] idKey n).1 (fullKey p idKey)).2 = n + 1) ∧
    ((chainSeq [p] idKey p.max).2.getLast? = some true) ∧
    ((chainSeq [p] idKey (p.max + 1)).2.getLast? = some false) := by
  obtain ⟨m, hm⟩ : ∃ m, p.max = m + 1 := ⟨p.max - 1, (Nat.succ_pred_eq_of_pos h).symm⟩
  refine ⟨chainSeq_single_decisions p idKey n, ?_, ?_, ?_⟩
  · rw [bump_snd, chainSeq_single_count]
  · rw [chainSeq_single_decisions, hm, List.range_succ, List.map_append]
    simp [hm]
  · rw [chainSeq_single_decisions, List.range_succ, List.map_append]
    simp [Nat.not_succ_le_self]

/-- C1 witness: the auth limiter (quota 5) on seven requests from one
IP allows the first five and denies the sixth and seventh. -/
theorem fixed_window_boundary_witness :
    ((chainSeq [authLimiter] "203.0.113.7" 7).2 =
      [true, true, true, true, true, false, false]) ∧
    ((chainSeq [authLimiter] "203.0.113.7" 5).2.getLast? = some true) ∧
    ((chainSeq [authLimiter] "203.0.113.7" 6).2.getLast? = some false) := by
  have h := fixed_window_boundary authLimiter "203.0.113.7" 7 (by decide)
  exact ⟨by rw [h.1]; decide, h.2.2.1, h.2.2.2⟩

/-- C2 counterexample: the general and auth limiters are distinct
policies, yet part_000 passes no prefix option for either, so both use
the rate-limit-redis default prefix rl: ; on the same identity they
resolve to the same Redis key, and one increment by the general limiter
is already visible under the auth limiter's key. -/
theorem shared_default_key_cex :
    generalLimiter ≠ authLimiter ∧
    generalLimiter.pfx = authLimiter.pfx ∧
    fullKey generalLimiter "203.0.113.7" = fullKey authLimiter "203.0.113.7" ∧
    storeCount (bump [] (fullKey generalLimiter "203.0.113.7")).1
      (fullKey authLimiter "203.0.113.7") = 1 := by
  decide

/-- C2 amended: the tenant, user and order policies use the distinct
explicit prefixes tenant_limit:, user_limit: and order_limit:, whose
key spaces are pairwise disjoint and disjoint from the default rl:
space used by the general and auth limiters, for all identity keys, so
those counters never interfere (increments on distinct keys leave each
other's counts unchanged); the general and auth limiters however share
the default prefix rl: and resolve the same identity to the same key. -/
theorem key_spaces_amended (m1 w1 m2 w2 : Nat) (k k2 : String) (s : Store)
    (h : k ≠ k2) :
    fullKey generalLimiter k = fullKey authLimiter k ∧
    fullKey generalLimiter k ≠ fullKey (tenantLimiter m1 w1) k2 ∧
    fullKey generalLimiter k ≠ fullKey (userLimiter m1 w1) k2 ∧
    fullKey generalLimiter k ≠ fullKey orderLimiter k2 ∧
    fullKey (tenantLimiter m1 w1) k ≠ fullKey (userLimiter m2 w2) k2 ∧
    fullKey (tenantLimiter m1 w1) k ≠ fullKey orderLimiter k2 ∧
    fullKey (userLimiter m1 w1) k ≠ fullKey orderLimiter k2 ∧
    storeCount (bump s k).1 k2 = storeCount s k2 :=
  ⟨rfl,
   mkConsAppend_ne 'r' 't' "l:".data "enant_limit:".data (by decide) k k2,
   mkConsAppend_ne 'r' 'u' "l:".data "ser_limit:".data (by decide) k k2,
   mkConsAppend_ne 'r' 'o' "l:".data "rder_limit:".data (by decide) k k2,
   mkConsAppend_ne 't' 'u' "enant_limit:".data "ser_limit:".data (by decide) k k2,
   mkConsAppend_ne 't' 'o' "enant_limit:".data "rder_limit:".data (by decide) k k2,
   mkConsAppend_ne 'u' 'o' "ser_limit:".data "rder_limit:".data (by decide) k k2,
   storeCount_bump_other s k k2 h⟩

/-- C2 amended witness at concrete identity keys and a concrete
store. -/
theorem key_spaces_amended_witness :
    fullKey generalLimiter "203.0.113.7" = fullKey authLimiter "203.0.113.7" ∧
    fullKey (tenantLimiter 1000 15) "203.0.113.7" ≠ fullKey (userLimiter 50 15) "u7" ∧
    storeCount (bump [("user_limit:u7", 3)] "203.0.113.7").1 "u7" =
      storeCount [("user_limit:u7", 3)] "u7" := by
  have h := key_spaces_amended 1000 15 50 15 "203.0.113.7" "u7"
    [("user_limit:u7", 3)] (by decide)
  exact ⟨h.1, h.2.2.2.2.1, h.2.2.2.2.2.2.2⟩

/-- C3 counterexample: when the Redis increment fails, the part_000
limiters have no fail-open path (no passOnStoreError option, no
try/catch); the store error propagates out of the middleware to the
global error handler of src/server.js, which answers with a 500 error
response. The request is therefore not forwarded (a forwarded request
is exactly a response of none), contradicting fail-open. -/
theorem store_failure_cex :
    (limiterMw generalLimiter "203.0.113.7" (some redisErr) []).2.isNone = false ∧
    limiterMw generalLimiter "203.0.113.7" (some redisErr) [] =
      ([], some (Response.mk 500 (JsVal.obj
          [("success", JsVal.jbool false),
           ("message", JsVal.str "Connection is closed."),
           ("error", JsVal.obj [])]))) :=
  ⟨rfl, rfl⟩

/-- C3 amended: on a store failure every policy fails closed, not open:
the middleware does not forward the request; the error reaches the
global error handler, whose response carries status 500 (when the error
has no status of its own) and the structured body success false with
the error's message. -/
theorem store_failure_closed (p : Policy) (idKey : String) (s : Store) (msg : String) :
    limiterMw p idKey (some { status := none, message := some msg }) s =
      (s, some (Response.mk 500 (JsVal.obj
          [("success", JsVal.jbool false),
           ("message", JsVal.str msg),
           ("error", JsVal.obj [])]))) ∧
    (limiterMw p idKey (some { status := none, message := some msg }) s).2.isNone = false :=
  ⟨rfl, rfl⟩

/-- C4: running the bulk reset script against a store whose every key
lies under one of the five policies' key prefixes or the store's
internal default prefix (the general and auth limiters use precisely
that default rl:) deletes every key, so afterwards keysMatching yields
the empty result for every pattern. -/
theorem clear_deletes_all (keys : List String)
    (h : ∀ k ∈ keys, matchesPat k "rl:" = true ∨
      (∃ p ∈ [generalLimiter, authLimiter, tenantLimiterDefault,
        userLimiterDefault, orderLimiter], matchesPat k p.pfx = true)) :
    clearRateLimits keys = [] ∧
    ∀ pat, keysMatching (clearRateLimits keys) pat = [] := by
  have hempty : clearRateLimits keys = [] := by
    rw [List.eq_nil_iff_forall_not_mem]
    intro a ha
    rw [clearRateLimits, mem_foldl_clearOnce] at ha
    obtain ⟨hmem, hall⟩ := ha
    rcases h a hmem with hsw | ⟨p, hp, hsw⟩
    · exact hall "rl:" (by decide) hsw
    · fin_cases hp
      · exact hall "rl:" (by decide) hsw
      · exact hall "rl:" (by decide) hsw
      · exact hall "tenant_limit:" (by decide) hsw
      · exact hall "user_limit:" (by decide) hsw
      · exact hall "order_limit:" (by decide) hsw
  exact ⟨hempty, fun pat => by rw [hempty]; rfl⟩

/-- C4 witness: a store populated under every policy prefix and the
default prefix is left clean. -/
theorem clear_deletes_all_witness :
    clearRateLimits ["rl:198.51.100.9", "rl:login-ip", "tenant_limit:t42",
      "user_limit:u7", "order_limit:u7"] = [] ∧
    keysMatching (clearRateLimits ["rl:198.51.100.9", "rl:login-ip",
      "tenant_limit:t42", "user_limit:u7", "order_limit:u7"]) "user_limit:" = [] := by
  have h := clear_deletes_all ["rl:198.51.100.9", "rl:login-ip", "tenant_limit:t42",
    "user_limit:u7", "order_limit:u7"] (by decide)
  exact ⟨h.1, h.2 "user_limit:"⟩

/-- C5: the reset script exits 0 exactly when connecting, every KEYS
enumeration, every DEL and the final quit succeeded, and exits 1 on any
connection or deletion failure; on a successful run the log carries,
for every pattern of the list in order, how many keys were found (the
deleting line with the count, or the no-keys line when zero), and on a
failing run the error is logged next to the exit status 1, never a
silent partial success. -/
theorem reset_exit_and_log (conn : RedisConn) :
    ((clearScript conn).1 = 0 ↔
      conn.connectOk = true ∧ (runPatterns conn clearPatterns).2 = none ∧
        conn.quitOk = true) ∧
    ((runPatterns conn clearPatterns).2 = none →
      (runPatterns conn clearPatterns).1 = clearPatterns.map (logFor conn)) ∧
    (∀ e, conn.connectOk = true → (runPatterns conn clearPatterns).2 = some e →
      (clearScript conn).1 = 1 ∧ LogEntry.errorMsg e ∈ (clearScript conn).2) := by
  refine ⟨?_, runPatterns_success_log conn clearPatterns, ?_⟩
  · match hc : conn.connectOk with
    | false => simp [clearScript, hc]
    | true =>
      match hr : (runPatterns conn clearPatterns).2 with
      | some e => simp [clearScript, hc, hr]
      | none =>
        match hq : conn.quitOk with
        | true => simp [clearScript, hc, hr, hq]
        | false => simp [clearScript, hc, hr, hq]
  · intro e hc hr
    simp [clearScript, hc, hr]

/-- C5 witness: a healthy connection exits 0 and logs one line per
pattern. -/
theorem reset_exit_and_log_witness :
    (clearScript connOk).1 = 0 ∧
    (runPatterns connOk clearPatterns).1 = clearPatterns.map (logFor connOk) := by
  have h := reset_exit_and_log connOk
  exact ⟨h.1.mpr ⟨rfl, by decide, rfl⟩, h.2.1 (by decide)⟩

/-- C6: the user-scoped key generator resolves to the authenticated
user's identifier when the request carries one and to the client IP
otherwise; two unauthenticated requests from different IPs resolve to
distinct user-policy keys, and increments on distinct keys leave each
other's counters unchanged. -/
theorem user_scope_resolution (m w : Nat) (req r1 r2 : Req) (u : UserRec)
    (i s1 s2 : String) (st : Store)
    (hu : req.user = some u) (hi : u.id = some i)
    (h1 : r1.user = none) (h2 : r2.user = none)
    (hip1 : r1.ip = some s1) (hip2 : r2.ip = some s2) (hne : s1 ≠ s2) :
    userKeyGen req = Except.ok (some i) ∧
    userKeyGen r1 = Except.ok (some s1) ∧
    userKeyGen r2 = Except.ok (some s2) ∧
    fullKey (userLimiter m w) s1 ≠ fullKey (userLimiter m w) s2 ∧
    storeCount (bump st (fullKey (userLimiter m w) s1)).1
      (fullKey (userLimiter m w) s2) =
      storeCount st (fullKey (userLimiter m w) s2) := by
  have hkey : fullKey (userLimiter m w) s1 ≠ fullKey (userLimiter m w) s2 := by
    simp only [fullKey]
    exact fun hk => hne (str_append_left_cancel hk)
  refine ⟨?_, ?_, ?_, hkey, storeCount_bump_other st _ _ hkey⟩
  · simp [userKeyGen, hu, hi]
  · simp [userKeyGen, h1, hip1]
  · simp [userKeyGen, h2, hip2]

/-- C6 witness on concrete requests. -/
theorem user_scope_resolution_witness :
    userKeyGen reqAuthd = Except.ok (some "64a1f20b9d3e") ∧
    userKeyGen reqAnon1 = Except.ok (some "198.51.100.1") ∧
    userKeyGen reqAnon2 = Except.ok (some "198.51.100.2") ∧
    fullKey (userLimiter 50 15) "198.51.100.1" ≠
      fullKey (userLimiter 50 15) "198.51.100.2" ∧
    storeCount (bump [] (fullKey (userLimiter 50 15) "198.51.100.1")).1
      (fullKey (userLimiter 50 15) "198.51.100.2") =
      storeCount ([] : Store) (fullKey (userLimiter 50 15) "198.51.100.2") :=
  user_scope_resolution 50 15 reqAuthd reqAnon1 reqAnon2
    { id := some "64a1f20b9d3e" } "64a1f20b9d3e" "198.51.100.1" "198.51.100.2" []
    rfl rfl rfl rfl rfl rfl (by decide)

/-- C7: the tenant-scoped key generator resolves with the precedence
tenant id on the request context (when truthy), else the tenant header
(when truthy), else the client IP, and it always returns normally,
never throwing, whatever fields the request is missing. -/
theorem tenant_key_precedence (req : Req) :
    (∀ t, req.tenantId = some t → t ≠ "" →
      tenantKeyGen req = Except.ok (some t)) ∧
    (∀ hd, truthy req.tenantId = false → req.xTenantIdHeader = some hd → hd ≠ "" →
      tenantKeyGen req = Except.ok (some hd)) ∧
    (truthy req.tenantId = false → truthy req.xTenantIdHeader = false →
      tenantKeyGen req = Except.ok req.ip) ∧
    (∃ v, tenantKeyGen req = Except.ok v) := by
  refine ⟨?_, ?_, ?_, ⟨_, rfl⟩⟩
  · intro t ht hne
    simp only [tenantKeyGen, ht]
    simp [truthy, hne]
  · intro hd ht hh hne
    simp only [tenantKeyGen, ht, hh]
    simp [truthy, hne]
  · intro ht hh
    simp only [tenantKeyGen, ht, hh]
    simp

/-- C7 witness on the three request shapes. -/
theorem tenant_key_precedence_witness :
    tenantKeyGen reqTenant = Except.ok (some "t42") ∧
    tenantKeyGen reqHdr = Except.ok (some "hdr9") ∧
    tenantKeyGen reqIpOnly = Except.ok (some "203.0.113.9") :=
  ⟨(tenant_key_precedence reqTenant).1 "t42" rfl (by decide),
   (tenant_key_precedence reqHdr).2.1 "hdr9" rfl rfl (by decide),
   (tenant_key_precedence reqIpOnly).2.2.1 rfl rfl⟩

/-- C8 counterexample: key resolution is not total. On a request
carrying an authenticated user record without an identifier, the user
and order key generators evaluate user._id.toString() on an undefined
_id and throw a TypeError instead of producing a key. -/
theorem keygen_throw_cex :
    userKeyGen reqNoId =
      Except.error "TypeError: Cannot read properties of undefined" ∧
    orderKeyGen reqNoId =
      Except.error "TypeError: Cannot read properties of undefined" ∧
    exceptOk (userKeyGen reqNoId) = false ∧
    exceptOk (orderKeyGen reqNoId) = false :=
  ⟨rfl, rfl, rfl, rfl⟩

/-- C8 amended: every key generator is a deterministic function of the
request, and resolution is total except in one case: on a request whose
user object lacks an identifier the user and order generators throw.
The tenant generator is total on every request, and the user and order
generators return normally whenever the request is unauthenticated or
its user object carries an identifier. -/
theorem keygen_total_amended (req : Req)
    (h : req.user = none ∨ ∃ u, req.user = some u ∧ u.id ≠ none) :
    (∃ v, userKeyGen req = Except.ok v) ∧
    (∃ v, orderKeyGen req = Except.ok v) ∧
    (∃ v, tenantKeyGen req = Except.ok v) := by
  have huser : ∃ v, userKeyGen req = Except.ok v := by
    rcases h with h | ⟨u, hu, hid⟩
    · exact ⟨req.ip, by simp [userKeyGen, h]⟩
    · match hi : u.id with
      | none => exact absurd hi hid
      | some i => exact ⟨some i, by simp [userKeyGen, hu, hi]⟩
  have horder : ∃ v, orderKeyGen req = Except.ok v := by
    rcases h with h | ⟨u, hu, hid⟩
    · exact ⟨req.ip, by simp [orderKeyGen, h]⟩
    · match hi : u.id with
      | none => exact absurd hi hid
      | some i => exact ⟨some i, by simp [orderKeyGen, hu, hi]⟩
  exact ⟨huser, horder, ⟨_, rfl⟩⟩

/-- C8 amended witness on an unauthenticated request. -/
theorem keygen_total_amended_witness :
    (∃ v, userKeyGen reqAnon1 = Except.ok v) ∧
    (∃ v, orderKeyGen reqAnon1 = Except.ok v) ∧
    (∃ v, tenantKeyGen reqAnon1 = Except.ok v) :=
  keygen_total_amended reqAnon1 (Or.inl rfl)

/-- C9 counterexample: the denial response of the general limiter is
status 429 with the configured message sent verbatim as the body, a
plain string; it is not an object, carries no success field, and is not
the structured body success false / message. -/
theorem denial_body_cex :
    denialResponse generalLimiter =
      { status := 429,
        body := JsVal.str "Too many requests from this IP, please try again later." } ∧
    hasSuccessField (denialResponse generalLimiter).body = false ∧
    (denialResponse generalLimiter).body ≠
      JsVal.obj [("success", JsVal.jbool false),
        ("message", JsVal.str generalLimiter.message)] :=
  ⟨rfl, rfl, fun h => JsVal.noConfusion h⟩

/-- C9 amended: for every request a policy denies, the response is the
too-many-requests status 429 whose body is the policy's configured
message string itself (not wrapped in a structured object). -/
theorem denial_status_and_message (p : Policy) (idKey : String) (s : Store)
    (h : p.max < (bump s (fullKey p idKey)).2) :
    limiterMw p idKey none s =
      ((bump s (fullKey p idKey)).1,
       some { status := 429, body := JsVal.str p.message }) := by
  simp only [limiterMw, denialResponse]
  rw [if_neg (Nat.not_le.mpr h)]

/-- C9 amended witness: the sixth auth request from one IP inside a
window receives the 429 response carrying the auth message string. -/
theorem denial_status_and_message_witness :
    limiterMw authLimiter "203.0.113.7" none [("rl:203.0.113.7", 5)] =
      ([("rl:203.0.113.7", 6)],
       some (Response.mk 429
         (JsVal.str "Too many authentication attempts, please try again later."))) :=
  denial_status_and_message authLimiter "203.0.113.7" [("rl:203.0.113.7", 5)] (by decide)

/-- C10 counterexample: on one route carrying the general limiter
(quota 100) followed by the auth limiter (quota 5), six requests from
one identity are decided allow, allow, deny, deny, deny, deny: the
third request is already denied, not the sixth as claimed, because both
limiters share the default prefix rl: and each forwarded request
increments the shared counter twice. -/
theorem chain_boundary_cex :
    (chainSeq [generalLimiter, authLimiter] "203.0.113.7" 6).2 =
      [true, true, false, false, false, false] ∧
    (chainSeq [generalLimiter, authLimiter] "203.0.113.7" 6).2 ≠
      [true, true, true, true, true, false] := by
  decide

/-- C10 amended: in a chain the first policy that denies determines the
outcome, its 429 response and message are surfaced, and the policies
after it are not evaluated and issue no store increments (the result is
the head denial with only the head's increment applied, for every tail);
but with the general (100 per window) and auth (5 per window) limiters
on one route, the shared rl: counter receives two increments per
forwarded request, so the third request from one identity is the first
denied one. -/
theorem chain_first_denier (p : Policy) (ps : List Policy) (idKey : String)
    (s : Store) (h : p.max < (bump s (fullKey p idKey)).2) :
    runChain idKey (p :: ps) s =
      ((bump s (fullKey p idKey)).1, some (denialResponse p)) ∧
    (runChain idKey (p :: ps) s).2 =
      some { status := 429, body := JsVal.str p.message } ∧
    (chainSeq [generalLimiter, authLimiter] "203.0.113.7" 6).2 =
      [true, true, false, false, false, false] := by
  have h1 : runChain idKey (p :: ps) s =
      ((bump s (fullKey p idKey)).1, some (denialResponse p)) := by
    rw [runChain_cons, if_neg (Nat.not_le.mpr h)]
  exact ⟨h1, by rw [h1]; rfl, by decide⟩

/-- C10 amended witness: the auth limiter at an exhausted counter
denies for the whole chain regardless of the policies after it. -/
theorem chain_first_denier_witness :
    runChain "203.0.113.7" [authLimiter, orderLimiter] [("rl:203.0.113.7", 7)] =
      ([("rl:203.0.113.7", 8)], some (denialResponse authLimiter)) ∧
    (chainSeq [generalLimiter, authLimiter] "203.0.113.7" 6).2 =
      [true, true, false, false, false, false] := by
  have h := chain_first_denier authLimiter [orderLimiter] "203.0.113.7"
    [("rl:203.0.113.7", 7)] (by decide)
  exact ⟨h.1, h.2.2⟩

end FoodDelivery
